import Mathlib

/- Verification of the door_lock_server access-control engine
   (src/cloud_server.py, src/mongo_config.py).

   Modelling conventions:
   - External collaborators are explicit inputs or function parameters:
     the vision provider (pyzbar QR decode, face_recognition detection and
     encoding) supplies the decoded QR payload and the list of face
     embeddings; the embedding distance function (numpy Euclidean norm in
     face_recognition.face_distance) is a parameter; the hashlib digests
     are parameters (sha256 is additionally given a concrete reference
     model below); the wall clock (datetime.now) is an input string; the
     MongoDB insert outcome is a boolean input.
   - Floats are idealised as rationals.
   - Python exceptions are modelled with Except where they escape and with
     explicit result values where the code catches them. -/

namespace DoorLock

abbrev Vec := List ℚ

/-- Face embedding distances list: index of the first minimal element,
following numpy argmin semantics (first occurrence wins on ties). -/
def argminIdx : List ℚ → Nat
  | [] => 0
  | [_] => 0
  | x :: y :: ys =>
    if x ≤ (y :: ys).getD (argminIdx (y :: ys)) 0 then 0
    else argminIdx (y :: ys) + 1

/-- Floor of a rational, computed from numerator and denominator. -/
def ratFloor (q : ℚ) : ℤ := Int.fdiv q.num (Int.ofNat q.den)

/-- Round a rational to the nearest integer, ties to even, matching the
idealised semantics of Python float formatting. -/
def roundHalfEven (q : ℚ) : ℤ :=
  if q - (ratFloor q : ℚ) < 1/2 then ratFloor q
  else if (1 : ℚ)/2 < q - (ratFloor q : ℚ) then ratFloor q + 1
  else if ratFloor q % 2 = 0 then ratFloor q else ratFloor q + 1

/-- Model of the Python format expression in recognize_face, line 127 of
cloud_server.py: the f-string percentage with one decimal place,
percent sign appended. Applied only to non-negative confidences. -/
def formatPct (c : ℚ) : String :=
  toString ((roundHalfEven (c * 1000)).toNat / 10) ++ "." ++
    toString ((roundHalfEven (c * 1000)).toNat % 10) ++ "%"

/-- Access log document, mirroring the fields inserted by
MongoDBConfig.log_access (mongo_config.py lines 120 to 130). -/
structure LogEntry where
  user_name : String
  status : String
  access_type : String
  confidence : Option String
deriving DecidableEq

/-- Face encoding document as read by
MongoDBConfig.get_all_face_encodings (mongo_config.py lines 96 to 107). -/
structure FaceDoc where
  user_name : String
  encoding : Vec
deriving DecidableEq

/-- The module-level mutable globals of cloud_server.py lines 38 to 42. -/
structure ServerState where
  mongo_connected : Bool
  known_face_encodings : List Vec
  known_face_names : List String
  encodings_loaded : Bool
  session_cache : List String
deriving DecidableEq

/-- Globals as first assigned at module level (cloud_server.py 38 to 42). -/
def initState : ServerState :=
  { mongo_connected := false
    known_face_encodings := []
    known_face_names := []
    encodings_loaded := false
    session_cache := [] }

/-- validate_qr (cloud_server.py lines 95 to 103). QR_HASH is the
configured authorized value, sha256hexFn the hashlib sha256 hexdigest.
A missing payload is None; Python treats None and the empty string as
falsy in the first guard. -/
def validate_qr (QR_HASH : String) (sha256hexFn : String → String)
    (qr_data : Option String) : Bool :=
  match qr_data with
  | none => false
  | some s =>
    if s = "" then false
    else if s = QR_HASH then true
    else if sha256hexFn s = QR_HASH then true
    else false

/-- recognize_face (cloud_server.py lines 106 to 129). The vision
provider is modelled by the faces argument, the ordered list of
embeddings of the detected faces (empty when no face is detected), and
by the distance function dist; the code compares the first embedding
against every gallery vector, takes the argmin, and accepts iff the
confidence 1 - distance is strictly above 0.5. -/
def recognize_face (st : ServerState) (dist : Vec → Vec → ℚ)
    (faces : List Vec) : Option String × String :=
  if st.encodings_loaded = false then (none, "No encodings loaded")
  else
    match faces with
    | [] => (none, "No face detected")
    | face_encoding :: _ =>
      if 1 - (st.known_face_encodings.map (fun g => dist g face_encoding)).getD
          (argminIdx (st.known_face_encodings.map (fun g => dist g face_encoding))) 0
          > 1/2 then
        (some (st.known_face_names.getD
            (argminIdx (st.known_face_encodings.map (fun g => dist g face_encoding))) ""),
         formatPct (1 - (st.known_face_encodings.map (fun g => dist g face_encoding)).getD
            (argminIdx (st.known_face_encodings.map (fun g => dist g face_encoding))) 0))
      else (none, "Face not recognized")

/-- Result of one MongoDBConfig.log_access call: the entry handed to the
recorder, the entries actually persisted, and diagnostic prints. -/
structure LogOutcome where
  attempted : List LogEntry
  persisted : List LogEntry
  diags : List String
deriving DecidableEq

/-- MongoDBConfig.log_access (mongo_config.py lines 120 to 130): the
insert_one call either succeeds (storage_ok) or raises, in which case
the exception is caught and only a diagnostic line is printed. Callers
in cloud_server.py omit the confidence argument, whose Python default
is None; the model passes it explicitly. -/
def log_access (storage_ok : Bool) (user_name status access_type : String)
    (confidence : Option String) : LogOutcome :=
  if storage_ok then
    { attempted := [⟨user_name, status, access_type, confidence⟩]
      persisted := [⟨user_name, status, access_type, confidence⟩]
      diags := [] }
  else
    { attempted := [⟨user_name, status, access_type, confidence⟩]
      persisted := []
      diags := ["Failed to log access"] }

/-- Caller-visible outcome of the /api/verify-qr handler. -/
structure QRResult where
  valid : Bool
  session_id : Option String
  sessions_added : List String
  log : LogOutcome
deriving DecidableEq

/-- verify_qr (cloud_server.py lines 152 to 180), after the image has
been decoded and scanned: qr_data is the result of decode_qr (the
vision provider), now is str(datetime.now()), md5hexFn the hashlib md5
hexdigest. On success a session id is minted from the clock, cached,
and the grant is logged; otherwise the denial is logged. -/
def verify_qr (QR_HASH : String) (sha256hexFn md5hexFn : String → String)
    (now : String) (storage_ok : Bool) (qr_data : Option String) : QRResult :=
  if validate_qr QR_HASH sha256hexFn qr_data then
    { valid := true
      session_id := some (md5hexFn now)
      sessions_added := [md5hexFn now]
      log := log_access storage_ok "QR" "opened" "qr" none }
  else
    { valid := false
      session_id := none
      sessions_added := []
      log := log_access storage_ok "QR" "denied" "qr" none }

/-- HTTP body plus status of /api/recognize-face, cloud_server.py
lines 183 to 214. -/
inductive FaceApiResponse where
  | unavailable
  | granted (name : String) (confidence : String)
  | denied
deriving DecidableEq

/-- Result of one /api/recognize-face call. -/
structure FaceApiResult where
  resp : FaceApiResponse
  log : LogOutcome
deriving DecidableEq

/-- recognize_face_api (cloud_server.py lines 183 to 214), after image
decoding: a 503 when no encodings are loaded (no log write), otherwise
recognize_face decides; a truthy name is granted and logged under that
name, anything else is denied and logged as Unknown. The Python guard
is the truthiness test if name, so an empty-string name also denies. -/
def recognize_face_api (st : ServerState) (dist : Vec → Vec → ℚ)
    (storage_ok : Bool) (faces : List Vec) : FaceApiResult :=
  if st.encodings_loaded = false then
    { resp := FaceApiResponse.unavailable
      log := { attempted := [], persisted := [], diags := [] } }
  else
    match recognize_face st dist faces with
    | (some name, msg) =>
      if name = "" then
        { resp := FaceApiResponse.denied
          log := log_access storage_ok "Unknown" "denied" "face" none }
      else
        { resp := FaceApiResponse.granted name msg
          log := log_access storage_ok name "opened" "face" none }
    | (none, _) =>
      { resp := FaceApiResponse.denied
        log := log_access storage_ok "Unknown" "denied" "face" none }

/-- MongoDBConfig.get_all_face_encodings (mongo_config.py lines 96 to
107): iterates the face_encodings collection into two parallel lists;
any exception is caught and a pair of empty lists is returned. The
collection contents are the docs input, fetch_ok is false when the
cursor raises. -/
def get_all_face_encodings (fetch_ok : Bool) (docs : List FaceDoc) :
    List Vec × List String :=
  if fetch_ok then (docs.map FaceDoc.encoding, docs.map FaceDoc.user_name)
  else ([], [])

/-- load_faces_from_mongo (cloud_server.py lines 69 to 82): fetches all
pairs; with zero encodings it returns leaving the globals untouched,
otherwise it replaces the gallery and sets encodings_loaded. -/
def load_faces_from_mongo (fetch_ok : Bool) (docs : List FaceDoc)
    (st : ServerState) : ServerState :=
  if (get_all_face_encodings fetch_ok docs).1.length = 0 then st
  else
    { st with
      known_face_encodings := (get_all_face_encodings fetch_ok docs).1
      known_face_names := (get_all_face_encodings fetch_ok docs).2
      encodings_loaded := true }

/-- Module-level startup of cloud_server.py: the QR_HASH guard at lines
31 to 33 raises out of the module (fatal), then the system startup at
lines 46 to 66 runs connection and gallery load inside a try whose
except clause only prints, after which the module finishes loading and
the app serves. Error means the process refuses to start; ok carries
the globals the server starts serving with. connect_ok is false when
MongoClient or server_info raises, fetch_ok and docs feed the gallery
load. Python treats an unset environment variable (None) and the empty
string alike as falsy. -/
def startServer (qr_hash_env mongo_uri_env : Option String)
    (connect_ok fetch_ok : Bool) (docs : List FaceDoc) :
    Except String ServerState :=
  match qr_hash_env with
  | none => Except.error "QR_HASH environment variable not set"
  | some q =>
    if q = "" then Except.error "QR_HASH environment variable not set"
    else
      Except.ok
        (match mongo_uri_env with
         | none => initState
         | some u =>
           if u = "" then initState
           else if connect_ok = false then initState
           else load_faces_from_mongo fetch_ok docs
             { initState with mongo_connected := true })

/-- Session ids issued over a sequence of verify_qr calls, each call
being a pair of the clock string observed and the QR payload decoded. -/
def qrSessionIds (QR_HASH : String) (sha256hexFn md5hexFn : String → String)
    (storage_ok : Bool) (calls : List (String × Option String)) : List String :=
  calls.filterMap
    (fun c => (verify_qr QR_HASH sha256hexFn md5hexFn c.1 storage_ok c.2).session_id)

/- Reference model of the external hashlib.sha256 hexdigest used by
validate_qr, written over Nat with explicit reduction mod 2 to the 32.
It lets the corner cases of validate_qr be exercised against the real
digest values rather than a stand-in hash function. -/

/-- Word size modulus for 32-bit arithmetic. -/
def pow32 : Nat := 4294967296

/-- Right rotation of a 32-bit word. -/
def rotr32 (n x : Nat) : Nat :=
  ((x >>> n) ||| (x <<< (32 - n))) % pow32

/-- SHA-256 Ch function. -/
def shaCh (e f g : Nat) : Nat := (e &&& f) ^^^ ((e ^^^ 4294967295) &&& g)

/-- SHA-256 Maj function. -/
def shaMaj (a b c : Nat) : Nat := (a &&& b) ^^^ (a &&& c) ^^^ (b &&& c)

/-- SHA-256 big sigma 0. -/
def bigSig0 (a : Nat) : Nat := rotr32 2 a ^^^ rotr32 13 a ^^^ rotr32 22 a

/-- SHA-256 big sigma 1. -/
def bigSig1 (e : Nat) : Nat := rotr32 6 e ^^^ rotr32 11 e ^^^ rotr32 25 e

/-- SHA-256 small sigma 0. -/
def smSig0 (x : Nat) : Nat := rotr32 7 x ^^^ rotr32 18 x ^^^ (x >>> 3)

/-- SHA-256 small sigma 1. -/
def smSig1 (x : Nat) : Nat := rotr32 17 x ^^^ rotr32 19 x ^^^ (x >>> 10)

/-- SHA-256 round constants, in decimal. -/
def shaK : List Nat :=
  [1116352408, 1899447441, 3049323471, 3921009573,
   961987163, 1508970993, 2453635748, 2870763221,
   3624381080, 310598401, 607225278, 1426881987,
   1925078388, 2162078206, 2614888103, 3248222580,
   3835390401, 4022224774, 264347078, 604807628,
   770255983, 1249150122, 1555081692, 1996064986,
   2554220882, 2821834349, 2952996808, 3210313671,
   3336571891, 3584528711, 113926993, 338241895,
   666307205, 773529912, 1294757372, 1396182291,
   1695183700, 1986661051, 2177026350, 2456956037,
   2730485921, 2820302411, 3259730800, 3345764771,
   3516065817, 3600352804, 4094571909, 275423344,
   430227734, 506948616, 659060556, 883997877,
   958139571, 1322822218, 1537002063, 1747873779,
   1955562222, 2024104815, 2227730452, 2361852424,
   2428436474, 2756734187, 3204031479, 3329325298]

/-- SHA-256 initial hash state, in decimal. -/
def shaH0 : List Nat :=
  [1779033703, 3144134277, 1013904242, 2773480762,
   1359893119, 2600822924, 528734635, 1541459225]

/-- One message-schedule extension step, appending word w of index
length from the last sixteen words. -/
def schedStep (ws : List Nat) : List Nat :=
  ws ++ [(smSig1 (ws.getD (ws.length - 2) 0) + ws.getD (ws.length - 7) 0 +
          smSig0 (ws.getD (ws.length - 15) 0) + ws.getD (ws.length - 16) 0) % pow32]

/-- Iterate the schedule extension k times. -/
def sched (ws : List Nat) : Nat → List Nat
  | 0 => ws
  | k + 1 => sched (schedStep ws) k

/-- One compression round on the eight-word working state. -/
def shaRound (st : List Nat) (kw : Nat) : List Nat :=
  match st with
  | [a, b, c, d, e, f, g, h] =>
    [((h + bigSig1 e + shaCh e f g + kw) % pow32 + (bigSig0 a + shaMaj a b c) % pow32) % pow32,
     a, b, c,
     (d + (h + bigSig1 e + shaCh e f g + kw) % pow32) % pow32,
     e, f, g]
  | other => other

/-- Compress one 64-byte block into the hash state. -/
def shaCompress (hs : List Nat) (block : List Nat) : List Nat :=
  List.zipWith (fun x y => (x + y) % pow32) hs
    (List.foldl shaRound hs
      (List.zipWith (fun k w => (k + w) % pow32) shaK
        (sched ((List.range 16).map (fun i =>
          block.getD (4 * i) 0 * 16777216 + block.getD (4 * i + 1) 0 * 65536 +
          block.getD (4 * i + 2) 0 * 256 + block.getD (4 * i + 3) 0)) 48)))

/-- Big-endian eight-byte encoding of the bit length. -/
def lenBytes (n : Nat) : List Nat :=
  (List.range 8).map (fun i => (n >>> ((7 - i) * 8)) % 256)

/-- SHA-256 padding: 0x80, zeros to 56 mod 64, then the bit length. -/
def padBytes (msg : List Nat) : List Nat :=
  msg ++ [128] ++ List.replicate ((64 - ((msg.length + 9) % 64)) % 64) 0 ++
    lenBytes (8 * msg.length)

/-- Split a padded byte list into 64-byte blocks, nblocks many. -/
def chunkBlocks (bs : List Nat) : Nat → List (List Nat)
  | 0 => []
  | k + 1 => bs.take 64 :: chunkBlocks (bs.drop 64) k

/-- UTF-8 encoding of one code point. -/
def encodeCharUtf8 (n : Nat) : List Nat :=
  if n < 128 then [n]
  else if n < 2048 then [192 + n / 64, 128 + n % 64]
  else if n < 65536 then [224 + n / 4096, 128 + (n / 64) % 64, 128 + n % 64]
  else [240 + n / 262144, 128 + (n / 4096) % 64, 128 + (n / 64) % 64, 128 + n % 64]

/-- UTF-8 bytes of a string, as Python str.encode produces. -/
def utf8Bytes (s : String) : List Nat :=
  (s.data.map (fun c => encodeCharUtf8 c.toNat)).flatten

/-- The eight 32-bit words of the SHA-256 digest of a byte list. -/
def sha256words (msg : List Nat) : List Nat :=
  List.foldl shaCompress shaH0
    (chunkBlocks (padBytes msg) ((padBytes msg).length / 64))

/-- Lowercase hex digit. -/
def hexDigit (n : Nat) : Char :=
  if n < 10 then Char.ofNat (48 + n) else Char.ofNat (87 + n)

/-- Eight-hex-digit rendering of a 32-bit word. -/
def toHex8 (n : Nat) : String :=
  String.mk ((List.range 8).map (fun i => hexDigit ((n >>> ((7 - i) * 4)) % 16)))

/-- Model of hashlib.sha256(s.encode()).hexdigest(). -/
def sha256hex (s : String) : String :=
  String.join ((sha256words (utf8Bytes s)).map toHex8)

/- Helper lemmas about argminIdx: the selected index is in range, the
element there is a member, and it is a lower bound, so it is the
minimum of the list. -/

theorem argminIdx_lt_length (l : List ℚ) (hne : l ≠ []) :
    argminIdx l < l.length := by
  induction l with
  | nil => exact absurd rfl hne
  | cons x xs ih =>
    cases xs with
    | nil => simp [argminIdx]
    | cons y ys =>
      rw [argminIdx]
      by_cases hc : x ≤ (y :: ys).getD (argminIdx (y :: ys)) 0
      · rw [if_pos hc]
        simp
      · rw [if_neg hc]
        simp only [List.length_cons]
        exact Nat.succ_lt_succ (ih (by simp))

theorem argminIdx_getD_mem (l : List ℚ) (hne : l ≠ []) :
    l.getD (argminIdx l) 0 ∈ l := by
  induction l with
  | nil => exact absurd rfl hne
  | cons x xs ih =>
    cases xs with
    | nil => simp [argminIdx]
    | cons y ys =>
      rw [argminIdx]
      by_cases hc : x ≤ (y :: ys).getD (argminIdx (y :: ys)) 0
      · rw [if_pos hc]
        simp
      · rw [if_neg hc, List.getD_cons_succ]
        exact List.mem_cons_of_mem x (ih (by simp))

theorem argminIdx_getD_le (l : List ℚ) (a : ℚ) (ha : a ∈ l) :
    l.getD (argminIdx l) 0 ≤ a := by
  induction l with
  | nil => exact absurd ha (List.not_mem_nil a)
  | cons x xs ih =>
    cases xs with
    | nil =>
      rcases List.mem_cons.mp ha with h | h
      · simp [argminIdx, h]
      · exact absurd h (List.not_mem_nil a)
    | cons y ys =>
      rw [argminIdx]
      by_cases hc : x ≤ (y :: ys).getD (argminIdx (y :: ys)) 0
      · simp only [if_pos hc, List.getD_cons_zero]
        rcases List.mem_cons.mp ha with h | h
        · exact le_of_eq h.symm
        · exact le_trans hc (ih h)
      · simp only [if_neg hc, List.getD_cons_succ]
        rcases List.mem_cons.mp ha with h | h
        · exact le_of_le_of_eq (le_of_not_le hc) h.symm
        · exact ih h

theorem min?_eq_argminIdx_getD (l : List ℚ) (hne : l ≠ []) :
    l.min? = some (l.getD (argminIdx l) 0) := by
  haveI : Std.Antisymm (fun (x1 x2 : ℚ) => x1 ≤ x2) :=
    ⟨fun h1 h2 => le_antisymm h1 h2⟩
  rw [List.min?_eq_some_iff (fun a => le_refl a) (fun a b => min_choice a b)
    (fun a b c => le_min_iff)]
  exact ⟨argminIdx_getD_mem l hne, fun b hb => argminIdx_getD_le l b hb⟩

/-- Characterisation of recognize_face on a loaded gallery and a
detected face: writing m for the minimum of the distances from the
probe to the gallery, the call accepts exactly when 1 - m exceeds the
0.5 threshold, returning the name aligned with the first index
achieving the minimum, and otherwise yields the fixed rejection pair. -/
theorem recognize_face_eq (st : ServerState) (dist : Vec → Vec → ℚ)
    (v : Vec) (fs : List Vec) (m : ℚ)
    (hload : st.encodings_loaded = true)
    (hmin : (st.known_face_encodings.map (fun g => dist g v)).min? = some m) :
    recognize_face st dist (v :: fs) =
      if 1 - m > 1/2 then
        (some (st.known_face_names.getD
            (argminIdx (st.known_face_encodings.map (fun g => dist g v))) ""),
         formatPct (1 - m))
      else (none, "Face not recognized") := by
  have hne : (st.known_face_encodings.map (fun g => dist g v)) ≠ [] := by
    intro h
    rw [h] at hmin
    simp [List.min?] at hmin
  have hm : (st.known_face_encodings.map (fun g => dist g v)).getD
      (argminIdx (st.known_face_encodings.map (fun g => dist g v))) 0 = m := by
    have := min?_eq_argminIdx_getD (st.known_face_encodings.map (fun g => dist g v)) hne
    rw [this] at hmin
    exact Option.some.inj hmin
  rw [recognize_face, hload]
  simp only [Bool.true_eq_false, if_false, hm]

/- Evaluation helpers for the percentage formatter at integer-valued
arguments, used by witnesses and counterexamples. -/

theorem ratFloor_intCast (z : ℤ) : ratFloor ((z : ℚ)) = z := by
  rw [ratFloor, Rat.num_intCast, Rat.den_intCast]
  exact Int.fdiv_one z

theorem roundHalfEven_intCast (z : ℤ) : roundHalfEven ((z : ℚ)) = z := by
  rw [roundHalfEven, ratFloor_intCast]
  rw [sub_self ((z : ℚ))]
  rw [if_pos (by norm_num : (0 : ℚ) < 1/2)]

theorem formatPct_eval (c : ℚ) (n : Nat) (h : c * 1000 = (n : ℚ)) :
    formatPct c = toString (n / 10) ++ "." ++ toString (n % 10) ++ "%" := by
  have hz : c * 1000 = (((n : ℤ) : ℚ)) := by
    rw [h]
    push_cast
    ring
  rw [formatPct, hz, roundHalfEven_intCast, Int.toNat_natCast]

/- Concrete fixtures used by witnesses and counterexamples. -/

/-- A loaded gallery holding one embedding owned by alice. -/
def galleryAlice : ServerState :=
  { mongo_connected := true
    known_face_encodings := [[0]]
    known_face_names := ["alice"]
    encodings_loaded := true
    session_cache := [] }

/-- C1: for every probe embedding v and fixed non-empty loaded gallery,
recognize_face computes the distance from v to every gallery vector,
selects the index of minimum distance (the argmin value equals the
minimum m of the distances), and returns the name at that index iff
1 - m is strictly greater than 0.5; 1 - m equal to 0.5 is rejected; the
confidence returned on acceptance is the percentage string with one
decimal place of 1 - m. -/
theorem C1_face_matcher (st : ServerState) (dist : Vec → Vec → ℚ)
    (v : Vec) (fs : List Vec) (m : ℚ)
    (hload : st.encodings_loaded = true)
    (hlen : st.known_face_names.length = st.known_face_encodings.length)
    (hmin : (st.known_face_encodings.map (fun g => dist g v)).min? = some m) :
    ((recognize_face st dist (v :: fs)).1.isSome = true ↔ 1 - m > 1/2) ∧
    (1 - m > 1/2 →
      recognize_face st dist (v :: fs) =
        (some (st.known_face_names.getD
            (argminIdx (st.known_face_encodings.map (fun g => dist g v))) ""),
         formatPct (1 - m))) ∧
    (1 - m = 1/2 → (recognize_face st dist (v :: fs)).1 = none) ∧
    (st.known_face_encodings.map (fun g => dist g v)).getD
        (argminIdx (st.known_face_encodings.map (fun g => dist g v))) 0 = m := by
  have hne : (st.known_face_encodings.map (fun g => dist g v)) ≠ [] := by
    intro h
    rw [h] at hmin
    simp [List.min?] at hmin
  have hgd := min?_eq_argminIdx_getD (st.known_face_encodings.map (fun g => dist g v)) hne
  rw [hmin] at hgd
  have hm := (Option.some.inj hgd).symm
  have heq := recognize_face_eq st dist v fs m hload hmin
  refine ⟨?_, ?_, ?_, hm⟩
  · rw [heq]
    by_cases hth : 1 - m > 1/2
    · rw [if_pos hth]
      exact iff_of_true rfl hth
    · rw [if_neg hth]
      exact iff_of_false (by simp) hth
  · intro hth
    rw [heq, if_pos hth]
  · intro hb
    have hth : ¬ (1 - m > 1/2) := by
      rw [hb]
      exact lt_irrefl (1/2)
    rw [heq, if_neg hth]

/-- Witness for C1 at the Scenario 3 instance: one gallery embedding for
alice at distance 0.3 from the probe yields the pair of alice and the
string of seventy percent. -/
theorem C1_face_matcher_witness :
    ((1 : ℚ) - 3/10 > 1/2) ∧
    recognize_face galleryAlice (fun _ _ => (3 : ℚ)/10) [[0]] =
      (some "alice", "70.0%") := by
  have h := C1_face_matcher galleryAlice (fun _ _ => (3 : ℚ)/10) [0] [] (3/10)
    rfl rfl (by simp [galleryAlice, List.min?])
  have hth : (1 : ℚ) - 3/10 > 1/2 := by norm_num
  refine ⟨hth, ?_⟩
  have h2 := h.2.1 hth
  rw [h2]
  have hfmt : formatPct (1 - (3 : ℚ)/10) = "70.0%" := by
    rw [formatPct_eval (1 - (3 : ℚ)/10) 700 (by norm_num)]
    decide
  rw [hfmt]
  simp [galleryAlice, argminIdx]

/-- C2 counterexample: with the configured authorized value equal to the
sha256 hexdigest of the empty string, the empty payload has a digest
equal to the configured value yet validate_qr rejects it, because the
falsiness guard of the code fires before any hashing; so the claimed
equivalence fails on this payload. -/
theorem C2_counterexample :
    sha256hex "" =
      "e3b0c44298fc1c149afbf4c8996fb92427ae41e4649b934ca495991b7852b855" ∧
    validate_qr
      "e3b0c44298fc1c149afbf4c8996fb92427ae41e4649b934ca495991b7852b855"
      sha256hex (some "") = false :=
  ⟨by decide, by decide⟩

/-- C2 amended: validation returns true iff the payload is present,
non-empty, and either equals the configured authorized value verbatim
or has a digest equal to the configured authorized value; an absent
payload yields false; the function is total, so validation never
throws. -/
theorem C2_validate_amended (QR_HASH : String) (hfn : String → String)
    (p : Option String) :
    (validate_qr QR_HASH hfn p = true ↔
      ∃ s, p = some s ∧ s ≠ "" ∧ (s = QR_HASH ∨ hfn s = QR_HASH)) ∧
    validate_qr QR_HASH hfn none = false := by
  refine ⟨?_, by rfl⟩
  cases p with
  | none => simp [validate_qr]
  | some s =>
    rw [validate_qr]
    split_ifs with h1 h2 h3
    · simp [h1]
    · simp only [true_iff]
      exact ⟨s, rfl, h1, Or.inl h2⟩
    · simp only [true_iff]
      exact ⟨s, rfl, h1, Or.inr h3⟩
    · simp [h1, h2, h3]

/-- C3: every call to the QR decision path, and to the face decision
path with a loaded gallery and an image present, hands exactly one
entry to the access-log recorder, on grant as well as deny outcomes;
in particular a frame with no detectable face is still logged as a
denied face decision with subject Unknown. -/
theorem C3_one_log_entry (QR_HASH : String) (hfn mfn : String → String)
    (now : String) (ok : Bool) (qr_data : Option String)
    (st : ServerState) (dist : Vec → Vec → ℚ) (faces : List Vec)
    (hload : st.encodings_loaded = true) :
    (verify_qr QR_HASH hfn mfn now ok qr_data).log.attempted.length = 1 ∧
    (recognize_face_api st dist ok faces).log.attempted.length = 1 ∧
    (faces = [] →
      (recognize_face_api st dist ok faces).log.attempted =
        [⟨"Unknown", "denied", "face", none⟩]) := by
  refine ⟨?_, ?_, ?_⟩
  · rw [verify_qr]
    by_cases hv : validate_qr QR_HASH hfn qr_data = true
    · rw [if_pos hv]
      cases ok <;> simp [log_access]
    · rw [if_neg hv]
      cases ok <;> simp [log_access]
  · rw [recognize_face_api, hload]
    simp only [Bool.true_eq_false, if_false]
    split
    · split
      · cases ok <;> simp [log_access]
      · cases ok <;> simp [log_access]
    · cases ok <;> simp [log_access]
  · intro hf
    subst hf
    rw [recognize_face_api, hload]
    simp only [Bool.true_eq_false, if_false]
    rw [recognize_face, hload]
    simp only [Bool.true_eq_false, if_false]
    cases ok <;> simp [log_access]

/-- Witness for C3: a valid QR call and a no-face face call, each with
one attempted entry, the face one denied for Unknown. -/
theorem C3_one_log_entry_witness :
    (verify_qr "S" (fun s => s) (fun s => s) "t" true (some "S")).log.attempted.length = 1 ∧
    (recognize_face_api galleryAlice (fun _ _ => (3 : ℚ)/10) true []).log.attempted =
      [⟨"Unknown", "denied", "face", none⟩] := by
  have h := C3_one_log_entry "S" (fun s => s) (fun s => s) "t" true (some "S")
    galleryAlice (fun _ _ => (3 : ℚ)/10) [] rfl
  exact ⟨h.1, h.2.2 rfl⟩

/-- C4 counterexample: with QR_HASH set and MONGO_URI absent, module
startup completes with Except.ok, i.e. the server starts serving, with
no storage connected and no gallery loaded; the claim says this
configuration must refuse to start. -/
theorem C4_counterexample :
    startServer (some "h") none true true [] = Except.ok initState ∧
    initState.mongo_connected = false ∧ initState.encodings_loaded = false :=
  ⟨rfl, rfl, rfl⟩

/-- C4 amended: a missing or empty QR_HASH environment variable is
fatal at module import; a missing MONGO_URI is caught inside the
startup try block, so the error is only printed and the server
proceeds to serve with the pristine globals: no storage connection and
no gallery loaded. -/
theorem C4_startup_amended (uri : Option String) (q : String)
    (connect_ok fetch_ok : Bool) (docs : List FaceDoc) (hq : q ≠ "") :
    startServer none uri connect_ok fetch_ok docs =
      Except.error "QR_HASH environment variable not set" ∧
    startServer (some "") uri connect_ok fetch_ok docs =
      Except.error "QR_HASH environment variable not set" ∧
    startServer (some q) none connect_ok fetch_ok docs = Except.ok initState := by
  refine ⟨rfl, rfl, ?_⟩
  rw [startServer]
  rw [if_neg hq]

/-- Witness for C4 at a concrete configuration: QR_HASH is the
non-empty string h and MONGO_URI is absent, and the server starts. -/
theorem C4_startup_amended_witness :
    ("h" : String) ≠ "" ∧
    startServer (some "h") none true true [] = Except.ok initState :=
  ⟨by decide, (C4_startup_amended none "h" true true [] (by decide)).2.2⟩

/- Helper lemmas about verify_qr and the session ids it issues. -/

theorem verify_qr_session_id (QR_HASH : String) (hfn mfn : String → String)
    (now : String) (ok : Bool) (qd : Option String) :
    (verify_qr QR_HASH hfn mfn now ok qd).session_id =
      if validate_qr QR_HASH hfn qd then some (mfn now) else none := by
  rw [verify_qr]
  by_cases hv : validate_qr QR_HASH hfn qd = true
  · rw [if_pos hv, if_pos hv]
  · rw [if_neg hv, if_neg hv]

theorem verify_qr_valid_eq (QR_HASH : String) (hfn mfn : String → String)
    (now : String) (ok : Bool) (qd : Option String) :
    (verify_qr QR_HASH hfn mfn now ok qd).valid = validate_qr QR_HASH hfn qd := by
  rw [verify_qr]
  by_cases hv : validate_qr QR_HASH hfn qd = true
  · rw [if_pos hv, hv]
  · rw [if_neg hv]
    exact (Bool.not_eq_true _).mp (fun h => hv h) |>.symm

theorem qrSessionIds_eq (QR_HASH : String) (hfn mfn : String → String)
    (ok : Bool) (calls : List (String × Option String)) :
    qrSessionIds QR_HASH hfn mfn ok calls =
      (calls.filter (fun c => validate_qr QR_HASH hfn c.2)).map (fun c => mfn c.1) := by
  induction calls with
  | nil => rfl
  | cons c cs ih =>
    rw [qrSessionIds, List.filterMap_cons] at *
    rw [verify_qr_session_id, List.filter_cons]
    by_cases hv : validate_qr QR_HASH hfn c.2 = true
    · rw [if_pos hv, if_pos (by exact hv), List.map_cons]
      exact congrArg (List.cons (mfn c.1)) ih
    · rw [if_neg hv, if_neg (by exact hv)]
      exact ih

/-- C5 counterexample: two consecutive successful QR verifications that
observe the same clock string receive the same session id, so the ids
issued across consecutive successful calls are not pairwise distinct. -/
theorem C5_counterexample :
    (verify_qr "S" (fun s => s) (fun s => String.append "id-" s) "t0" true
      (some "S")).valid = true ∧
    qrSessionIds "S" (fun s => s) (fun s => String.append "id-" s) true
      [("t0", some "S"), ("t0", some "S")] = ["id-t0", "id-t0"] ∧
    ¬ (["id-t0", "id-t0"] : List String).Nodup := by
  refine ⟨rfl, rfl, by decide⟩

/-- C5 amended: on success the response carries a session id built by
hashing the observed clock string, and the session id is present iff
valid is true; the ids issued across consecutive successful calls are
pairwise distinct provided the clock strings observed by the calls are
pairwise distinct and the hash is injective on them, and each id is
non-empty provided the hash output is non-empty on them. -/
theorem C5_sessions_amended (QR_HASH : String) (hfn mfn : String → String)
    (ok : Bool) (calls : List (String × Option String))
    (hnodup : (calls.map Prod.fst).Nodup)
    (hinj : ∀ c1 ∈ calls, ∀ c2 ∈ calls, mfn c1.1 = mfn c2.1 → c1.1 = c2.1)
    (hne : ∀ c ∈ calls, mfn c.1 ≠ "") :
    (qrSessionIds QR_HASH hfn mfn ok calls).Nodup ∧
    (∀ sid ∈ qrSessionIds QR_HASH hfn mfn ok calls, sid ≠ "") ∧
    (∀ now qd, ((verify_qr QR_HASH hfn mfn now ok qd).session_id.isSome = true ↔
      (verify_qr QR_HASH hfn mfn now ok qd).valid = true)) := by
  rw [qrSessionIds_eq]
  have hsub : (calls.filter (fun c => validate_qr QR_HASH hfn c.2)).Sublist calls :=
    List.filter_sublist calls
  refine ⟨?_, ?_, ?_⟩
  · have hmapeq : (calls.filter (fun c => validate_qr QR_HASH hfn c.2)).map
        (fun c => mfn c.1) =
        ((calls.filter (fun c => validate_qr QR_HASH hfn c.2)).map Prod.fst).map mfn := by
      rw [List.map_map]
      rfl
    rw [hmapeq]
    have hfstnodup : ((calls.filter (fun c => validate_qr QR_HASH hfn c.2)).map
        Prod.fst).Nodup :=
      List.Nodup.sublist (List.Sublist.map Prod.fst hsub) hnodup
    refine List.Nodup.map_on ?_ hfstnodup
    intro x hx y hy hxy
    rcases List.mem_map.mp hx with ⟨c1, hc1, rfl⟩
    rcases List.mem_map.mp hy with ⟨c2, hc2, rfl⟩
    exact hinj c1 (List.Sublist.mem hc1 hsub) c2 (List.Sublist.mem hc2 hsub) hxy
  · intro sid hsid
    rcases List.mem_map.mp hsid with ⟨c, hc, rfl⟩
    exact hne c (List.Sublist.mem hc hsub)
  · intro now qd
    rw [verify_qr_session_id, verify_qr_valid_eq]
    by_cases hv : validate_qr QR_HASH hfn qd = true
    · rw [if_pos hv, hv]
      simp
    · rw [if_neg hv]
      simp [hv]

/-- Witness for C5 at two successful calls with distinct clock strings:
the issued ids are pairwise distinct. -/
theorem C5_sessions_amended_witness :
    (qrSessionIds "S" (fun s => s) (fun s => String.append "id-" s) true
      [("t1", some "S"), ("t2", some "S")]).Nodup :=
  (C5_sessions_amended "S" (fun s => s) (fun s => String.append "id-" s) true
    [("t1", some "S"), ("t2", some "S")] (by decide) (by decide) (by decide)).1

/-- C6 counterexample: with one gallery embedding at distance 0.7 the
computed confidence is 0.3, not above the threshold, and recognize_face
returns the pair of none and the fixed rejection reason; no component
of the returned value carries the percentage string of the computed
confidence, so the claimed triple making the percentage available to
the caller is not what the code returns. -/
theorem C6_counterexample :
    recognize_face galleryAlice (fun _ _ => (7 : ℚ)/10) [[0]] =
      (none, "Face not recognized") ∧
    formatPct ((3 : ℚ)/10) = "30.0%" ∧
    "Face not recognized" ≠ "30.0%" := by
  refine ⟨?_, ?_, by decide⟩
  · have heq := recognize_face_eq galleryAlice (fun _ _ => (7 : ℚ)/10) [0] [] (7/10)
      rfl (by simp [galleryAlice, List.min?])
    rw [heq, if_neg (by norm_num)]
  · rw [formatPct_eval ((3 : ℚ)/10) 300 (by norm_num)]
    decide

/-- C6 amended: when a face is detected but the confidence is not
strictly above the threshold, recognize_face returns the pair of none
and the fixed reason string Face not recognized; the computed
confidence percentage is discarded inside the matcher and is not
returned to the caller. -/
theorem C6_rejection_amended (st : ServerState) (dist : Vec → Vec → ℚ)
    (v : Vec) (fs : List Vec) (m : ℚ)
    (hload : st.encodings_loaded = true)
    (hmin : (st.known_face_encodings.map (fun g => dist g v)).min? = some m)
    (hrej : ¬ (1 - m > 1/2)) :
    recognize_face st dist (v :: fs) = (none, "Face not recognized") := by
  rw [recognize_face_eq st dist v fs m hload hmin, if_neg hrej]

/-- Witness for C6 at the distance 0.7 instance. -/
theorem C6_rejection_amended_witness :
    ¬ ((1 : ℚ) - 7/10 > 1/2) ∧
    recognize_face galleryAlice (fun _ _ => (7 : ℚ)/10) [[0]] =
      (none, "Face not recognized") :=
  ⟨by norm_num,
   C6_rejection_amended galleryAlice (fun _ _ => (7 : ℚ)/10) [0] [] (7/10)
     rfl (by simp [galleryAlice, List.min?]) (by norm_num)⟩

/-- The caller-visible face response does not depend on whether the log
write succeeds. -/
theorem recognize_face_api_resp_ok (st : ServerState) (dist : Vec → Vec → ℚ)
    (faces : List Vec) (ok : Bool) :
    (recognize_face_api st dist ok faces).resp =
      (recognize_face_api st dist true faces).resp := by
  rw [recognize_face_api, recognize_face_api]
  by_cases hl : st.encodings_loaded = false
  · rw [if_pos hl, if_pos hl]
  · rw [if_neg hl, if_neg hl]
    rcases hr : recognize_face st dist faces with ⟨n?, msg⟩
    cases n? with
    | none => simp
    | some name => by_cases hn : name = "" <;> simp [hn]

/-- C7: a failing access-log insert is swallowed: the entry is still
attempted, nothing is persisted, exactly one diagnostic line is
printed, and no exception escapes, log_access being total; the
caller-visible decision of both handlers is identical whether the log
write succeeds or fails, the decision being computed from the inputs
before the write is attempted. -/
theorem C7_log_failure_swallowed (u s t : String) (c : Option String)
    (QR_HASH : String) (hfn mfn : String → String) (now : String)
    (qd : Option String) (st : ServerState) (dist : Vec → Vec → ℚ)
    (faces : List Vec) (ok : Bool) :
    (log_access false u s t c).persisted = [] ∧
    (log_access false u s t c).diags = ["Failed to log access"] ∧
    (log_access false u s t c).attempted = (log_access true u s t c).attempted ∧
    (verify_qr QR_HASH hfn mfn now ok qd).valid =
      (verify_qr QR_HASH hfn mfn now true qd).valid ∧
    (verify_qr QR_HASH hfn mfn now ok qd).session_id =
      (verify_qr QR_HASH hfn mfn now true qd).session_id ∧
    (recognize_face_api st dist ok faces).resp =
      (recognize_face_api st dist true faces).resp := by
  refine ⟨rfl, rfl, rfl, ?_, ?_, recognize_face_api_resp_ok st dist faces ok⟩
  · rw [verify_qr_valid_eq, verify_qr_valid_eq]
  · rw [verify_qr_session_id, verify_qr_session_id]

/-- C8: with the gallery not loaded, the face path returns the distinct
availability outcome: recognize_face answers the fixed pair No
encodings loaded, the API answers unavailable, which is a different
outcome from denied, and no access-log entry is attempted, so no
recognition was evaluated and no denial was recorded. -/
theorem C8_unavailable (st : ServerState) (dist : Vec → Vec → ℚ)
    (ok : Bool) (faces : List Vec)
    (hnl : st.encodings_loaded = false) :
    recognize_face st dist faces = (none, "No encodings loaded") ∧
    recognize_face_api st dist ok faces =
      { resp := FaceApiResponse.unavailable
        log := { attempted := [], persisted := [], diags := [] } } ∧
    FaceApiResponse.unavailable ≠ FaceApiResponse.denied := by
  refine ⟨?_, ?_, by decide⟩
  · rw [recognize_face.eq_def, if_pos hnl]
  · rw [recognize_face_api, if_pos hnl]

/-- Witness for C8 at the pristine startup state. -/
theorem C8_unavailable_witness :
    initState.encodings_loaded = false ∧
    recognize_face_api initState (fun _ _ => 0) true [] =
      { resp := FaceApiResponse.unavailable
        log := { attempted := [], persisted := [], diags := [] } } :=
  ⟨rfl, (C8_unavailable initState (fun _ _ => 0) true [] rfl).2.1⟩

/-- C9: the gallery invariant that the name list and the vector list
have equal lengths holds after every load, including the
storage-failure branch which leaves the state untouched; a load from
the startup state sets encodings_loaded iff at least one pair was
returned, zero pairs leave the startup state unchanged, and on a
non-empty successful fetch the gallery is the index-aligned pair of
the per-document vectors and owner names. -/
theorem C9_gallery_invariant (fetch_ok : Bool) (docs : List FaceDoc)
    (st : ServerState)
    (hinv : st.known_face_names.length = st.known_face_encodings.length) :
    ((load_faces_from_mongo fetch_ok docs st).known_face_names.length =
      (load_faces_from_mongo fetch_ok docs st).known_face_encodings.length) ∧
    ((load_faces_from_mongo fetch_ok docs initState).encodings_loaded = true ↔
      (get_all_face_encodings fetch_ok docs).1 ≠ []) ∧
    ((get_all_face_encodings fetch_ok docs).1 = [] →
      load_faces_from_mongo fetch_ok docs initState = initState) ∧
    (fetch_ok = true → docs ≠ [] →
      (load_faces_from_mongo fetch_ok docs st).known_face_encodings =
        docs.map FaceDoc.encoding ∧
      (load_faces_from_mongo fetch_ok docs st).known_face_names =
        docs.map FaceDoc.user_name) := by
  cases fetch_ok with
  | false =>
    refine ⟨hinv, ?_, fun _ => rfl, fun h => absurd h (by simp)⟩
    simp [load_faces_from_mongo, get_all_face_encodings, initState]
  | true =>
    cases docs with
    | nil =>
      refine ⟨hinv, ?_, fun _ => rfl, fun _ h => absurd rfl h⟩
      simp [load_faces_from_mongo, get_all_face_encodings, initState]
    | cons d ds =>
      refine ⟨?_, ?_, ?_, fun _ _ => ⟨?_, ?_⟩⟩
      · simp [load_faces_from_mongo, get_all_face_encodings]
      · simp [load_faces_from_mongo, get_all_face_encodings, initState]
      · intro h
        simp [get_all_face_encodings] at h
      · simp [load_faces_from_mongo, get_all_face_encodings]
      · simp [load_faces_from_mongo, get_all_face_encodings]

/-- Witness for C9: loading one document for alice from the startup
state sets encodings_loaded. -/
theorem C9_gallery_invariant_witness :
    (load_faces_from_mongo true [⟨"alice", [0]⟩] initState).encodings_loaded = true :=
  ((C9_gallery_invariant true [⟨"alice", [0]⟩] initState rfl).2.1).mpr
    (by simp [get_all_face_encodings])

/-- C10: every access-log entry attempted by the live decision paths
has its confidence field equal to none, the QR path on both outcomes
and the face path even on a successful match whose confidence
percentage is returned to the caller; QR entries always use the fixed
subject string QR. -/
theorem C10_log_fields (QR_HASH : String) (hfn mfn : String → String)
    (now : String) (ok : Bool) (qd : Option String) (st : ServerState)
    (dist : Vec → Vec → ℚ) (faces : List Vec) :
    (∀ e ∈ (verify_qr QR_HASH hfn mfn now ok qd).log.attempted,
      e.confidence = none ∧ e.user_name = "QR") ∧
    (∀ e ∈ (recognize_face_api st dist ok faces).log.attempted,
      e.confidence = none) := by
  constructor
  · intro e he
    rw [verify_qr] at he
    by_cases hv : validate_qr QR_HASH hfn qd = true
    · rw [if_pos hv] at he
      cases ok <;> simp [log_access] at he <;> simp [he]
    · rw [if_neg hv] at he
      cases ok <;> simp [log_access] at he <;> simp [he]
  · intro e he
    rw [recognize_face_api] at he
    by_cases hl : st.encodings_loaded = false
    · rw [if_pos hl] at he
      simp at he
    · rw [if_neg hl] at he
      rcases hr : recognize_face st dist faces with ⟨n?, msg⟩
      rw [hr] at he
      cases n? with
      | none => cases ok <;> simp [log_access] at he <;> simp [he]
      | some name =>
        by_cases hn : name = ""
        · cases ok <;> simp [log_access, hn] at he <;> simp [he]
        · cases ok <;> simp [log_access, hn] at he <;> simp [he]

/-- Witness for C10: the entry attempted by a concrete successful QR
verification has subject QR and no confidence. -/
theorem C10_log_fields_witness :
    (⟨"QR", "opened", "qr", none⟩ : LogEntry) ∈
      (verify_qr "S" (fun s => s) (fun s => s) "t" true (some "S")).log.attempted ∧
    ((⟨"QR", "opened", "qr", none⟩ : LogEntry).confidence = none ∧
      (⟨"QR", "opened", "qr", none⟩ : LogEntry).user_name = "QR") :=
  ⟨by decide,
   (C10_log_fields "S" (fun s => s) (fun s => s) "t" true (some "S") initState
     (fun _ _ => 0) []).1 ⟨"QR", "opened", "qr", none⟩ (by decide)⟩

end DoorLock
